import Mathlib

/-!
Shallow embedding of the `easyhttpserver` Go package: the configuration
validator (`Options.Verify`), base-address computation (`Options.BaseURL`),
startup orchestration (`Start`), the server handle (`Server.Wait`,
`Server.Endpoints`), and the shutdown coordinator (`gracefulShutdown`).

Modelling conventions:
* Go `error` values are `Option String` (or the inductive `GoErr` where the
  identity of `context.DeadlineExceeded` matters): `none` is the `nil` error.
* Functions that return an error alongside mutating their receiver are
  embedded as `Except E Options`, returning the mutated record on success.
* A Go `panic` is embedded as the `.error` branch of an `Except`.
* `time.Duration` is an `Int` counting nanoseconds, so `10 * time.Second`
  is `10000000000`.
* External effects of `Start` (the linked ACME library constant and the
  `os.Stat` of the certificate-cache directory) are passed as parameters.
* Each `go func() { ...; errc <- err }()` is counted in
  `Server.startedExecutions`; the capacity passed to `make(chan error, 2)`
  is recorded in `Server.errcCap`.
-/

namespace EasyHTTPServer

/-- Caller-supplied request handler: opaque to the core, carried around by
identity only. -/
structure Handler where
  id : Nat
deriving DecidableEq, Repr

/-- The handler installed on an `http.Server`: either the caller-supplied
handler, or (in Let's Encrypt mode, on the plain listener) the certificate
manager's HTTP-01 challenge responder wrapping `nil`. -/
inductive HTTPHandler where
  | caller (h : Handler)
  | challengeResponder
deriving DecidableEq, Repr

/-- The `Options` record of the Go source (app settings, env settings and
derived settings).  The `Log` field is omitted: it is a function pointer
with no bearing on any modelled behaviour. -/
structure Options where
  DefaultDevPort : Int
  GracefulShutdownTimeout : Int
  Port : Int
  Host : String
  LetsEncrypt : Bool
  LetsEncryptCacheDir : String
  LetsEncryptEmail : String
  IsLocalDevelopmentHost : Bool
  PrimaryScheme : String
deriving DecidableEq, Repr

/-- The Go zero value of `Options`. -/
def Options.zero : Options :=
  { DefaultDevPort := 0, GracefulShutdownTimeout := 0, Port := 0, Host := "",
    LetsEncrypt := false, LetsEncryptCacheDir := "", LetsEncryptEmail := "",
    IsLocalDevelopmentHost := false, PrimaryScheme := "" }

/-- The distinct error returns of `Options.Verify`, one constructor per
`fmt.Errorf` site. -/
inductive VerifyError where
  | missingPortForLocalDev
  | notSupportedOnLocalhost
  | missingHost
  | missingEmail
  | missingCacheDir
  | portMismatch (port : Int)
deriving DecidableEq, Repr

/-- Whether a `VerifyError` is the port-mismatch error of `Verify`'s
Let's Encrypt block. -/
def VerifyError.isPortMismatch : VerifyError → Bool
  | .portMismatch _ => true
  | _ => false

/-- Go's `strings.HasPrefix`, character-wise over the string's contents. -/
def goHasPrefix (s pre : String) : Bool :=
  s.data.take pre.data.length == pre.data

/-- The condition of `Verify`'s first `if`: the host is empty, `"localhost"`,
or starts with `"localhost:"`. -/
def Options.hostLooksLocal (sopt : Options) : Bool :=
  sopt.Host == "" || sopt.Host == "localhost" || goHasPrefix sopt.Host "localhost:"

/-- Step 1 of `Verify`: mark local-development mode when the host looks
local (the flag is only ever set, never cleared). -/
def Options.applyLocalMode (sopt : Options) : Options :=
  if sopt.hostLooksLocal then { sopt with IsLocalDevelopmentHost := true } else sopt

/-- Step 2 of `Verify`: a zero port defaults to `DefaultDevPort` in
local-development mode (an error when that is zero too) and to 80
otherwise; a non-zero port is kept. -/
def Options.resolvePort (sopt : Options) : Except VerifyError Options :=
  if sopt.Port == 0 then
    if sopt.IsLocalDevelopmentHost then
      if sopt.DefaultDevPort == 0 then
        Except.error VerifyError.missingPortForLocalDev
      else Except.ok { sopt with Port := sopt.DefaultDevPort }
    else Except.ok { sopt with Port := 80 }
  else Except.ok sopt

/-- Step 3 of `Verify`: the Let's Encrypt requirement checks, in source
order. -/
def Options.checkLetsEncrypt (sopt : Options) : Except VerifyError Unit :=
  if sopt.LetsEncrypt then
    if sopt.IsLocalDevelopmentHost then
      Except.error VerifyError.notSupportedOnLocalhost
    else if sopt.Host == "" then
      Except.error VerifyError.missingHost
    else if sopt.LetsEncryptEmail == "" then
      Except.error VerifyError.missingEmail
    else if sopt.LetsEncryptCacheDir == "" then
      Except.error VerifyError.missingCacheDir
    else if sopt.Port != 80 then
      Except.error (VerifyError.portMismatch sopt.Port)
    else Except.ok ()
  else Except.ok ()

/-- Steps 4 and 5 of `Verify`: set the primary scheme from the
local-development flag, then synthesize `localhost:<port>` when the host is
empty or exactly `"localhost"`. -/
def Options.applySchemeAndHost (sopt : Options) : Options :=
  let sopt := if sopt.IsLocalDevelopmentHost
    then { sopt with PrimaryScheme := "http" }
    else { sopt with PrimaryScheme := "https" }
  if sopt.Host == "" || sopt.Host == "localhost"
    then { sopt with Host := "localhost:" ++ toString sopt.Port }
    else sopt

/-- `(*Options).Verify` from the source, as the sequence of its four
mutation/check blocks with the source's early returns; on success returns
the mutated record. -/
def Options.Verify (sopt0 : Options) : Except VerifyError Options :=
  match sopt0.applyLocalMode.resolvePort with
  | Except.error e => Except.error e
  | Except.ok sopt =>
    match sopt.checkLetsEncrypt with
    | Except.error e => Except.error e
    | Except.ok _ => Except.ok sopt.applySchemeAndHost

/-- Whether `Verify` accepts the configuration. -/
def Options.verifySucceeds (sopt : Options) : Bool :=
  match sopt.Verify with
  | Except.ok _ => true
  | Except.error _ => false

/-- `Options.BaseURL` from the source: panics (modelled as `.error`) when
called before `Verify` has set the scheme, or when the host is missing;
otherwise produces `scheme://host`. -/
def Options.BaseURL (sopt : Options) : Except String String :=
  if sopt.PrimaryScheme == "" then Except.error "BaseURL before Verify"
  else if sopt.Host == "" then Except.error "missing HOST"
  else Except.ok (sopt.PrimaryScheme ++ "://" ++ sopt.Host)

/-- One `*http.Server` as configured by `Start`: its listen address and its
handler. -/
structure GoHTTPServer where
  addr : String
  handler : HTTPHandler
deriving DecidableEq, Repr

/-- The `Server` struct of the Go source, with the channel and the
goroutines replaced by observable bookkeeping: `errcCap` is the capacity
passed to `make(chan error, _)` and `startedExecutions` counts the
`go func() { ...; errc <- err }()` launches. -/
structure Server where
  httpServer : Option GoHTTPServer
  httpsServer : Option GoHTTPServer
  errcCap : Nat
  startedExecutions : Nat
  gracefulShutdownTimeout : Int
  baseURL : String
  endpoints : List String
deriving DecidableEq, Repr

/-- The distinct synchronous error returns of `Start`, one constructor per
`return nil, ...` site. -/
inductive StartError where
  | verifyFailed (e : VerifyError)
  | baseURLPanic (msg : String)
  | acmeURLMismatch (url : String)
  | cacheDirInaccessible (dir : String)
  | cacheDirNotDirectory (dir : String)
deriving DecidableEq, Repr

/-- Result of the `os.Stat` on the certificate-cache directory:
`none` when `Stat` fails, `some b` when it succeeds with `IsDir() = b`. -/
def StatResult : Type := Option Bool
deriving instance DecidableEq, Repr for StatResult

/-- The production directory endpoint `Start` insists the linked ACME
library targets. -/
def acmeProductionURL : String := "https://acme-v02.api.letsencrypt.org/directory"

/-- `Start`'s opening block: run `Verify` when the primary scheme is still
unset (the caller did not verify), pass the options through unchanged
otherwise. -/
def startVerify (sopt0 : Options) : Except StartError Options :=
  if sopt0.PrimaryScheme == "" then
    match sopt0.Verify with
    | Except.error e => Except.error (StartError.verifyFailed e)
    | Except.ok s => Except.ok s
  else Except.ok sopt0

/-- `Start`'s graceful-shutdown default: a zero timeout becomes
`10 * time.Second`. -/
def applyShutdownDefault (sopt : Options) : Options :=
  if sopt.GracefulShutdownTimeout == 0
    then { sopt with GracefulShutdownTimeout := 10000000000 } else sopt

/-- `Start`'s Let's Encrypt block: in Let's Encrypt mode, check the cache
directory, build the HTTPS server (caller's handler, port 443), count its
launched execution, and replace the plain listener's handler by the
certificate manager's challenge responder; otherwise no HTTPS server, no
extra execution, and the caller's handler on the plain listener. -/
def startTLSPart (handler : Handler) (sopt : Options) (cacheDirStat : StatResult) :
    Except StartError (Option GoHTTPServer × Nat × HTTPHandler) :=
  if sopt.LetsEncrypt then
    match cacheDirStat with
    | none =>
      Except.error (StartError.cacheDirInaccessible sopt.LetsEncryptCacheDir)
    | some isDir =>
      if !isDir then
        Except.error (StartError.cacheDirNotDirectory sopt.LetsEncryptCacheDir)
      else
        Except.ok (some ⟨":https", HTTPHandler.caller handler⟩, 1,
          HTTPHandler.challengeResponder)
  else Except.ok (none, 0, HTTPHandler.caller handler)

/-- `Start`'s closing block: the handle it returns, holding the plain
server on the resolved port, the channel capacity 2 from
`make(chan error, 2)`, one launched execution per listener, and the
endpoint list (base URL first, loopback supplement when not local and the
port is not 80). -/
def mkServer (sopt : Options) (url : String)
    (tls : Option GoHTTPServer × Nat × HTTPHandler) : Server :=
  { httpServer := some ⟨":" ++ toString sopt.Port, tls.2.2⟩
    httpsServer := tls.1
    errcCap := 2
    startedExecutions := tls.2.1 + 1
    gracefulShutdownTimeout := sopt.GracefulShutdownTimeout
    baseURL := url
    endpoints := [url] ++
      (if !sopt.IsLocalDevelopmentHost && sopt.Port != 80 then
        ["127.0.0.1:" ++ toString sopt.Port] else []) }

/-- `Start` from the source.  `acmeURL` stands for the linked library's
`acme.LetsEncryptURL` constant and `cacheDirStat` for the `os.Stat` of the
cache directory; both are external inputs of the otherwise pure setup code.
Follows the source order: verify (only when the scheme is still unset),
default the graceful-shutdown timeout, compute the base URL (which can
panic), check the ACME URL, run the Let's Encrypt block, and return the
handle with the plain server installed and the endpoint list computed. -/
def Start (handler : Handler) (sopt0 : Options) (acmeURL : String)
    (cacheDirStat : StatResult) : Except StartError Server :=
  match startVerify sopt0 with
  | Except.error e => Except.error e
  | Except.ok sopt1 =>
    match (applyShutdownDefault sopt1).BaseURL with
    | Except.error msg => Except.error (StartError.baseURLPanic msg)
    | Except.ok url =>
      if acmeURL != acmeProductionURL then
        Except.error (StartError.acmeURLMismatch acmeURL)
      else
        match startTLSPart handler (applyShutdownDefault sopt1) cacheDirStat with
        | Except.error e => Except.error e
        | Except.ok tls =>
          Except.ok (mkServer (applyShutdownDefault sopt1) url tls)

/-- `Server.Endpoints` from the source. -/
def Server.Endpoints (srv : Server) : List String :=
  srv.endpoints

/-- The number of blocking receives `Server.Wait` performs: one per
non-`nil` `*http.Server` field. -/
def Server.numReceives (srv : Server) : Nat :=
  (if srv.httpServer.isSome then 1 else 0) +
  (if srv.httpsServer.isSome then 1 else 0)

/-- One `e := <-srv.errc; if err == nil { err = e }` step of `Wait`:
consumes the head of the queued completions, or `none` when the queue is
empty (the receive would block forever). -/
def recvStep (err : Option String) (queue : List (Option String)) :
    Option (Option String × List (Option String)) :=
  match queue with
  | [] => none
  | e :: rest => some ((if err.isNone then e else err), rest)

/-- `Server.Wait` from the source, over an explicit queue of completions in
arrival order: a conditional receive for the plain server, then one for the
HTTPS server when present.  Returns `none` when the queue runs out (Wait
would block forever), otherwise `some` of the error Wait returns. -/
def Server.Wait (srv : Server) (queue : List (Option String)) :
    Option (Option String) :=
  let st1 := if srv.httpServer.isSome then recvStep none queue
    else some ((none : Option String), queue)
  match st1 with
  | none => none
  | some (err, q) =>
    if srv.httpsServer.isSome then
      match recvStep err q with
      | none => none
      | some (err2, _) => some err2
    else some err

/-- The first non-`nil` error in a list of completions, `none` when all are
`nil`: the value `Wait` is specified to return. -/
def firstNonNil : List (Option String) → Option String
  | [] => none
  | some e :: _ => some e
  | none :: rest => firstNonNil rest

/-- Go error values whose identity matters to the shutdown coordinator:
`context.DeadlineExceeded` versus anything else. -/
inductive GoErr where
  | deadlineExceeded
  | other (msg : String)
deriving DecidableEq, Repr

/-- Observable actions of one `gracefulShutdown` invocation, in order. -/
inductive ShutdownEvent where
  | gracefulCalled (result : Option GoErr)
  | logTimeout
  | panicked (e : GoErr)
  | forcefulCalled
deriving DecidableEq, Repr

/-- `gracefulShutdown` from the source, as the ordered trace of its actions
given the error the graceful phase returned.  `defer forceful()` runs on
every exit path (normal return and panic unwinding alike) so
`forcefulCalled` ends every trace.  A `DeadlineExceeded` result is logged;
any other non-nil result is re-raised as a panic. -/
def gracefulShutdown (gracefulResult : Option GoErr) : List ShutdownEvent :=
  [ShutdownEvent.gracefulCalled gracefulResult] ++
  (if gracefulResult == some GoErr.deadlineExceeded then
    [ShutdownEvent.logTimeout]
  else
    match gracefulResult with
    | some e => [ShutdownEvent.panicked e]
    | none => []) ++
  [ShutdownEvent.forcefulCalled]

/-- Whether a shutdown trace escaped by panic (rather than returning). -/
def shutdownPanics (trace : List ShutdownEvent) : Bool :=
  trace.any fun ev => match ev with
    | ShutdownEvent.panicked _ => true
    | _ => false

/-! ## Structural lemmas about the validator and startup stages -/

theorem applyLocalMode_eq (sopt : Options) :
    sopt.applyLocalMode =
      { sopt with IsLocalDevelopmentHost :=
          sopt.IsLocalDevelopmentHost || sopt.hostLooksLocal } := by
  unfold Options.applyLocalMode
  by_cases h : sopt.hostLooksLocal = true
  · simp [h]
  · simp only [Bool.not_eq_true] at h
    simp [h]

theorem hostLooksLocal_of_empty {sopt : Options} (h : sopt.Host = "") :
    sopt.hostLooksLocal = true := by
  unfold Options.hostLooksLocal
  simp [h]

theorem not_hostLooksLocal {sopt : Options} (h : sopt.hostLooksLocal = false) :
    sopt.Host ≠ "" ∧ sopt.Host ≠ "localhost" := by
  unfold Options.hostLooksLocal at h
  simp only [Bool.or_eq_false_iff, beq_eq_false_iff_ne, ne_eq] at h
  exact ⟨h.1.1, h.1.2⟩

theorem resolvePort_of_port_ne_zero {sopt : Options} (h : sopt.Port ≠ 0) :
    sopt.resolvePort = Except.ok sopt := by
  unfold Options.resolvePort
  simp [h]

theorem resolvePort_ok_frame {sopt out : Options}
    (h : sopt.resolvePort = Except.ok out) :
    out.Host = sopt.Host ∧ out.DefaultDevPort = sopt.DefaultDevPort ∧
    out.GracefulShutdownTimeout = sopt.GracefulShutdownTimeout ∧
    out.LetsEncrypt = sopt.LetsEncrypt ∧
    out.LetsEncryptCacheDir = sopt.LetsEncryptCacheDir ∧
    out.LetsEncryptEmail = sopt.LetsEncryptEmail ∧
    out.IsLocalDevelopmentHost = sopt.IsLocalDevelopmentHost ∧
    out.PrimaryScheme = sopt.PrimaryScheme := by
  unfold Options.resolvePort at h
  split_ifs at h <;> (simp only [Except.ok.injEq] at h; subst h; simp_all)

theorem resolvePort_ok_port {sopt out : Options}
    (h : sopt.resolvePort = Except.ok out) (hp : sopt.Port ≠ 0) :
    out = sopt := by
  rw [resolvePort_of_port_ne_zero hp] at h
  simp only [Except.ok.injEq] at h
  exact h.symm

theorem checkLetsEncrypt_of_off {sopt : Options} (h : sopt.LetsEncrypt = false) :
    sopt.checkLetsEncrypt = Except.ok () := by
  unfold Options.checkLetsEncrypt
  simp [h]

theorem checkLetsEncrypt_of_local {sopt : Options}
    (hle : sopt.LetsEncrypt = true) (hl : sopt.IsLocalDevelopmentHost = true) :
    sopt.checkLetsEncrypt = Except.error VerifyError.notSupportedOnLocalhost := by
  unfold Options.checkLetsEncrypt
  simp [hle, hl]

theorem checkLetsEncrypt_ok_port {sopt : Options}
    (h : sopt.checkLetsEncrypt = Except.ok ()) (hle : sopt.LetsEncrypt = true) :
    sopt.Port = 80 := by
  unfold Options.checkLetsEncrypt at h
  rw [hle] at h
  simp only [if_true] at h
  split_ifs at h
  all_goals simp_all

theorem checkLetsEncrypt_portMismatch {sopt : Options}
    (hle : sopt.LetsEncrypt = true) (hl : sopt.IsLocalDevelopmentHost = false)
    (hh : sopt.Host ≠ "") (he : sopt.LetsEncryptEmail ≠ "")
    (hc : sopt.LetsEncryptCacheDir ≠ "") (hp : sopt.Port ≠ 80) :
    sopt.checkLetsEncrypt = Except.error (VerifyError.portMismatch sopt.Port) := by
  unfold Options.checkLetsEncrypt
  simp [hle, hl, hh, he, hc, hp]

theorem applySchemeAndHost_of_host_other {sopt : Options}
    (h1 : sopt.Host ≠ "") (h2 : sopt.Host ≠ "localhost") :
    sopt.applySchemeAndHost =
      { sopt with PrimaryScheme :=
          if sopt.IsLocalDevelopmentHost then "http" else "https" } := by
  unfold Options.applySchemeAndHost
  by_cases hl : sopt.IsLocalDevelopmentHost = true
  · simp [hl, h1, h2]
  · simp only [Bool.not_eq_true] at hl
    simp [hl, h1, h2]

theorem applySchemeAndHost_of_host_local {sopt : Options}
    (h : sopt.Host = "" ∨ sopt.Host = "localhost") :
    sopt.applySchemeAndHost =
      { sopt with
          PrimaryScheme := if sopt.IsLocalDevelopmentHost then "http" else "https",
          Host := "localhost:" ++ toString sopt.Port } := by
  unfold Options.applySchemeAndHost
  by_cases hl : sopt.IsLocalDevelopmentHost = true
  · rcases h with h | h <;> simp [hl, h]
  · simp only [Bool.not_eq_true] at hl
    rcases h with h | h <;> simp [hl, h]

theorem verify_ok_elim {sopt out : Options} (h : sopt.Verify = Except.ok out) :
    ∃ mid, sopt.applyLocalMode.resolvePort = Except.ok mid ∧
      mid.checkLetsEncrypt = Except.ok () ∧ out = mid.applySchemeAndHost := by
  unfold Options.Verify at h
  split at h
  · simp at h
  · rename_i mid heq
    split at h
    · simp at h
    · rename_i u heq2
      simp only [Except.ok.injEq] at h
      cases u
      exact ⟨mid, heq, heq2, h.symm⟩

theorem verify_eq_ok {sopt mid : Options}
    (hr : sopt.applyLocalMode.resolvePort = Except.ok mid)
    (hc : mid.checkLetsEncrypt = Except.ok ()) :
    sopt.Verify = Except.ok mid.applySchemeAndHost := by
  simp only [Options.Verify, hr, hc]

theorem verify_eq_error_of_resolvePort {sopt : Options} {e : VerifyError}
    (hr : sopt.applyLocalMode.resolvePort = Except.error e) :
    sopt.Verify = Except.error e := by
  simp only [Options.Verify, hr]

theorem verify_eq_error_of_check {sopt mid : Options} {e : VerifyError}
    (hr : sopt.applyLocalMode.resolvePort = Except.ok mid)
    (hc : mid.checkLetsEncrypt = Except.error e) :
    sopt.Verify = Except.error e := by
  simp only [Options.Verify, hr, hc]

theorem localhost_append_ne_empty (s : String) : "localhost:" ++ s ≠ "" := by
  intro h
  have h2 := congrArg String.length h
  rw [String.length_append] at h2
  have h3 : ("localhost:" : String).length = 10 := rfl
  have h4 : ("" : String).length = 0 := rfl
  rw [h3, h4] at h2
  omega

theorem verify_ok_frame {sopt out : Options} (h : sopt.Verify = Except.ok out) :
    out.DefaultDevPort = sopt.DefaultDevPort ∧
    out.GracefulShutdownTimeout = sopt.GracefulShutdownTimeout ∧
    out.LetsEncrypt = sopt.LetsEncrypt ∧
    out.LetsEncryptCacheDir = sopt.LetsEncryptCacheDir ∧
    out.LetsEncryptEmail = sopt.LetsEncryptEmail := by
  obtain ⟨mid, hr, hc, hout⟩ := verify_ok_elim h
  have hf := resolvePort_ok_frame hr
  rw [applyLocalMode_eq] at hf
  have hs : mid.applySchemeAndHost.DefaultDevPort = mid.DefaultDevPort ∧
      mid.applySchemeAndHost.GracefulShutdownTimeout = mid.GracefulShutdownTimeout ∧
      mid.applySchemeAndHost.LetsEncrypt = mid.LetsEncrypt ∧
      mid.applySchemeAndHost.LetsEncryptCacheDir = mid.LetsEncryptCacheDir ∧
      mid.applySchemeAndHost.LetsEncryptEmail = mid.LetsEncryptEmail := by
    by_cases hH : mid.Host = "" ∨ mid.Host = "localhost"
    · rw [applySchemeAndHost_of_host_local hH]
      simp
    · push_neg at hH
      rw [applySchemeAndHost_of_host_other hH.1 hH.2]
      simp
  rw [hout]
  refine ⟨?_, ?_, ?_, ?_, ?_⟩ <;> simp_all

theorem startVerify_elim {sopt0 sopt1 : Options}
    (h : startVerify sopt0 = Except.ok sopt1) :
    (sopt0.PrimaryScheme = "" ∧ sopt0.Verify = Except.ok sopt1) ∨
    (sopt0.PrimaryScheme ≠ "" ∧ sopt1 = sopt0) := by
  unfold startVerify at h
  split_ifs at h with hs
  · left
    refine ⟨by simpa using hs, ?_⟩
    cases hv : sopt0.Verify with
    | error e => rw [hv] at h; simp at h
    | ok s => rw [hv] at h; simp only [Except.ok.injEq] at h; rw [h]
  · right
    simp only [Except.ok.injEq] at h
    exact ⟨by simpa using hs, h.symm⟩

theorem applyShutdownDefault_frame (sopt : Options) :
    (applyShutdownDefault sopt).Port = sopt.Port ∧
    (applyShutdownDefault sopt).Host = sopt.Host ∧
    (applyShutdownDefault sopt).LetsEncrypt = sopt.LetsEncrypt ∧
    (applyShutdownDefault sopt).IsLocalDevelopmentHost =
      sopt.IsLocalDevelopmentHost ∧
    (applyShutdownDefault sopt).PrimaryScheme = sopt.PrimaryScheme := by
  unfold applyShutdownDefault
  split_ifs <;> simp

theorem applyShutdownDefault_timeout (sopt : Options) :
    (sopt.GracefulShutdownTimeout = 0 →
      (applyShutdownDefault sopt).GracefulShutdownTimeout = 10000000000) ∧
    (sopt.GracefulShutdownTimeout ≠ 0 →
      (applyShutdownDefault sopt).GracefulShutdownTimeout =
        sopt.GracefulShutdownTimeout) := by
  unfold applyShutdownDefault
  constructor
  · intro h
    simp [h]
  · intro h
    simp [h]

theorem startTLSPart_ok_elim {handler : Handler} {sopt : Options}
    {stat : StatResult} {tls : Option GoHTTPServer × Nat × HTTPHandler}
    (h : startTLSPart handler sopt stat = Except.ok tls) :
    (sopt.LetsEncrypt = false ∧ tls = (none, 0, HTTPHandler.caller handler)) ∨
    (sopt.LetsEncrypt = true ∧ stat = some true ∧
      tls = (some ⟨":https", HTTPHandler.caller handler⟩, 1,
        HTTPHandler.challengeResponder)) := by
  unfold startTLSPart at h
  split_ifs at h with hle
  · right
    cases stat with
    | none => simp at h
    | some isDir =>
      cases isDir with
      | false => simp at h
      | true =>
        simp only [Bool.not_true, if_neg, Except.ok.injEq] at h
        exact ⟨hle, rfl, by simp_all⟩
  · left
    simp only [Except.ok.injEq] at h
    exact ⟨by simpa using hle, h.symm⟩

theorem start_ok_elim {handler : Handler} {sopt0 : Options} {acmeURL : String}
    {stat : StatResult} {srv : Server}
    (h : Start handler sopt0 acmeURL stat = Except.ok srv) :
    ∃ sopt1 url tls,
      startVerify sopt0 = Except.ok sopt1 ∧
      (applyShutdownDefault sopt1).BaseURL = Except.ok url ∧
      startTLSPart handler (applyShutdownDefault sopt1) stat = Except.ok tls ∧
      srv = mkServer (applyShutdownDefault sopt1) url tls := by
  unfold Start at h
  split at h
  · simp at h
  · rename_i sopt1 hv
    split at h
    · simp at h
    · rename_i url hurl
      split_ifs at h
      split at h
      · simp at h
      · rename_i tls htls
        simp only [Except.ok.injEq] at h
        exact ⟨sopt1, url, tls, hv, hurl, htls, h.symm⟩

theorem http_scheme_append (t : String) :
    "http" ++ "://" ++ ("localhost:" ++ t) = "http://localhost:" ++ t := by
  have h : ("http://localhost:" : String) = "http://" ++ "localhost:" := rfl
  rw [h, String.append_assoc]
  rfl

/-! ## The claims -/

/-- C8: for every configuration on which validation has not yet run (the
primary scheme is still unset), `Options.BaseURL` panics (the modelled
error branch) rather than returning a value. -/
theorem C8_baseURL_panics_before_verify (sopt : Options)
    (h : sopt.PrimaryScheme = "") :
    sopt.BaseURL = Except.error "BaseURL before Verify" := by
  unfold Options.BaseURL
  simp [h]

/-- C8 witness: the zero-valued configuration has no scheme yet and
`BaseURL` panics on it. -/
theorem C8_witness :
    Options.zero.PrimaryScheme = "" ∧
      Options.zero.BaseURL = Except.error "BaseURL before Verify" :=
  ⟨rfl, C8_baseURL_panics_before_verify Options.zero rfl⟩

/-- C6: a configuration with empty hostname, zero port, TLS disabled and a
non-zero development-default port validates successfully, with the
local-development flag set, scheme `http`, the port resolved to the
development default, the hostname synthesized as `localhost:<devport>`, and
`BaseURL` returning `http://localhost:<devport>`. -/
theorem C6_local_dev_defaults (sopt : Options)
    (hhost : sopt.Host = "") (hport : sopt.Port = 0)
    (htls : sopt.LetsEncrypt = false) (hdev : sopt.DefaultDevPort ≠ 0) :
    sopt.Verify = Except.ok
      { sopt with
          IsLocalDevelopmentHost := true,
          Port := sopt.DefaultDevPort, PrimaryScheme := "http",
          Host := "localhost:" ++ toString sopt.DefaultDevPort } ∧
    Options.BaseURL
      { sopt with
          IsLocalDevelopmentHost := true,
          Port := sopt.DefaultDevPort, PrimaryScheme := "http",
          Host := "localhost:" ++ toString sopt.DefaultDevPort } =
      Except.ok ("http://localhost:" ++ toString sopt.DefaultDevPort) := by
  have h1 : sopt.applyLocalMode = { sopt with IsLocalDevelopmentHost := true } := by
    rw [applyLocalMode_eq]
    simp [Options.hostLooksLocal, hhost]
  have h2 : sopt.applyLocalMode.resolvePort =
      Except.ok { sopt with
                  IsLocalDevelopmentHost := true,
                  Port := sopt.DefaultDevPort } := by
    rw [h1]
    unfold Options.resolvePort
    simp [hport, hdev]
  have h3 : (Options.checkLetsEncrypt
      { sopt with
        IsLocalDevelopmentHost := true,
        Port := sopt.DefaultDevPort }) = Except.ok () :=
    checkLetsEncrypt_of_off (by simpa using htls)
  have h4 := verify_eq_ok h2 h3
  have h5 : (Options.applySchemeAndHost
      { sopt with
        IsLocalDevelopmentHost := true,
        Port := sopt.DefaultDevPort }) =
      { sopt with
        IsLocalDevelopmentHost := true,
        Port := sopt.DefaultDevPort, PrimaryScheme := "http",
        Host := "localhost:" ++ toString sopt.DefaultDevPort } := by
    rw [applySchemeAndHost_of_host_local (Or.inl (by simpa using hhost))]
    simp
  refine ⟨by rw [h4, h5], ?_⟩
  have hne := localhost_append_ne_empty (toString sopt.DefaultDevPort)
  unfold Options.BaseURL
  simp only [beq_iff_eq]
  rw [if_neg (by simp), if_neg (by simpa using hne)]
  rw [http_scheme_append]

/-- C6 witness: with development-default port 3001 the validated
configuration's base URL is exactly `http://localhost:3001`. -/
theorem C6_witness :
    Options.Verify { Options.zero with DefaultDevPort := 3001 } =
      Except.ok { Options.zero with
                  DefaultDevPort := 3001,
                  IsLocalDevelopmentHost := true, Port := 3001,
                  PrimaryScheme := "http", Host := "localhost:3001" } ∧
    Options.BaseURL { Options.zero with
                      DefaultDevPort := 3001,
                      IsLocalDevelopmentHost := true, Port := 3001,
                      PrimaryScheme := "http", Host := "localhost:3001" } =
      Except.ok "http://localhost:3001" := by
  have h := C6_local_dev_defaults { Options.zero with DefaultDevPort := 3001 }
    rfl rfl rfl (by decide)
  exact ⟨h.1, h.2⟩

/-- C9 (amended): validation synthesizes `localhost:<port>` exactly when
the hostname is empty or exactly `"localhost"` after the earlier steps —
not only when it is empty; every other hostname (including
`localhost:<port>` forms) is left unchanged by successful validation. -/
theorem C9_host_synthesis (sopt out : Options)
    (h : sopt.Verify = Except.ok out) :
    (sopt.Host ≠ "" → sopt.Host ≠ "localhost" → out.Host = sopt.Host) ∧
    (sopt.Host = "" ∨ sopt.Host = "localhost" →
      out.Host = "localhost:" ++ toString out.Port) := by
  obtain ⟨mid, hr, hc, hout⟩ := verify_ok_elim h
  have hmidHost : mid.Host = sopt.Host := by
    rw [(resolvePort_ok_frame hr).1, applyLocalMode_eq]
  constructor
  · intro h1 h2
    rw [hout, applySchemeAndHost_of_host_other
      (by rw [hmidHost]; exact h1) (by rw [hmidHost]; exact h2)]
    exact hmidHost
  · intro hor
    have hor2 : mid.Host = "" ∨ mid.Host = "localhost" := by
      rw [hmidHost]; exact hor
    rw [hout, applySchemeAndHost_of_host_local hor2]

/-- C9 witness: a configuration whose hostname is `"example.net"` keeps it
unchanged through validation. -/
theorem C9_witness :
    (Options.Verify { Options.zero with Host := "example.net", Port := 8080 }
      = Except.ok { Options.zero with
                    Host := "example.net", Port := 8080,
                    PrimaryScheme := "https" }) ∧
    ({ Options.zero with
       Host := "example.net", Port := 8080,
       PrimaryScheme := "https" } : Options).Host = "example.net" :=
  ⟨rfl, (C9_host_synthesis
      { Options.zero with Host := "example.net", Port := 8080 }
      { Options.zero with
        Host := "example.net", Port := 8080,
        PrimaryScheme := "https" } rfl).1 (by decide) (by decide)⟩

/-- C9 counterexample: the claim says a non-empty hostname (for example
`"localhost"`) is left unchanged, but validation rewrites the hostname
`"localhost"` to `"localhost:3001"`. -/
theorem C9_counterexample :
    Options.Verify { Options.zero with Host := "localhost", Port := 3001 } =
      Except.ok { Options.zero with
                  Host := "localhost:3001", Port := 3001,
                  IsLocalDevelopmentHost := true, PrimaryScheme := "http" } ∧
    ("localhost:3001" : String) ≠ "localhost" := by
  exact ⟨rfl, by decide⟩

/-- C3: in the shutdown coordinator, the forceful-closure step runs on
every invocation (success, timeout and failure paths alike); a
deadline-exceeded graceful result is only logged, with the coordinator
returning normally; and any other non-nil graceful result causes a
panic. -/
theorem C3_shutdown_coordinator (res : Option GoErr) :
    ShutdownEvent.forcefulCalled ∈ gracefulShutdown res ∧
    (res = none →
      gracefulShutdown res =
        [ShutdownEvent.gracefulCalled none, ShutdownEvent.forcefulCalled]) ∧
    (res = some GoErr.deadlineExceeded →
      gracefulShutdown res =
        [ShutdownEvent.gracefulCalled (some GoErr.deadlineExceeded),
         ShutdownEvent.logTimeout, ShutdownEvent.forcefulCalled] ∧
      shutdownPanics (gracefulShutdown res) = false) ∧
    (∀ e : GoErr, e ≠ GoErr.deadlineExceeded → res = some e →
      gracefulShutdown res =
        [ShutdownEvent.gracefulCalled (some e), ShutdownEvent.panicked e,
         ShutdownEvent.forcefulCalled]) := by
  refine ⟨?_, ?_, ?_, ?_⟩
  · cases res with
    | none => simp [gracefulShutdown]
    | some e => cases e <;> simp [gracefulShutdown]
  · rintro rfl
    rfl
  · rintro rfl
    exact ⟨rfl, rfl⟩
  · rintro e he rfl
    cases e with
    | deadlineExceeded => exact absurd rfl he
    | other msg => simp [gracefulShutdown, beq_iff_eq]

/-- C3 witness: a graceful-phase failure other than deadline-exceeded
produces the panic trace, with the deferred forceful closure still run. -/
theorem C3_witness :
    gracefulShutdown (some (GoErr.other "boom")) =
      [ShutdownEvent.gracefulCalled (some (GoErr.other "boom")),
       ShutdownEvent.panicked (GoErr.other "boom"),
       ShutdownEvent.forcefulCalled] :=
  (C3_shutdown_coordinator (some (GoErr.other "boom"))).2.2.2
    (GoErr.other "boom") (by decide) rfl

/-- C4 (amended): with TLS enabled and a non-zero port other than 80,
validation always fails; the error is specifically the port-mismatch error
once the earlier checks pass (not local, host looks non-local, email and
cache dir non-empty); and successful validation never changes a non-zero
caller-supplied port. -/
theorem C4_tls_port_mismatch (sopt : Options) :
    (sopt.LetsEncrypt = true → sopt.Port ≠ 0 → sopt.Port ≠ 80 →
      sopt.verifySucceeds = false) ∧
    (sopt.LetsEncrypt = true → sopt.IsLocalDevelopmentHost = false →
      sopt.hostLooksLocal = false → sopt.Port ≠ 0 → sopt.Port ≠ 80 →
      sopt.LetsEncryptEmail ≠ "" → sopt.LetsEncryptCacheDir ≠ "" →
      sopt.Verify = Except.error (VerifyError.portMismatch sopt.Port)) ∧
    (∀ out, sopt.Verify = Except.ok out → sopt.Port ≠ 0 →
      out.Port = sopt.Port) := by
  refine ⟨?_, ?_, ?_⟩
  · intro htls hp h80
    have hno : ∀ out, sopt.Verify ≠ Except.ok out := by
      intro out hv
      obtain ⟨mid, hr, hc, _⟩ := verify_ok_elim hv
      have hmid := resolvePort_ok_port hr (by rw [applyLocalMode_eq]; simpa using hp)
      have hle : mid.LetsEncrypt = true := by
        rw [hmid, applyLocalMode_eq]
        simpa using htls
      have h80x := checkLetsEncrypt_ok_port hc hle
      rw [hmid, applyLocalMode_eq] at h80x
      exact h80 (by simpa using h80x)
    unfold Options.verifySucceeds
    cases hv : sopt.Verify with
    | error e => rfl
    | ok out => exact absurd hv (hno out)
  · intro htls hisl hhll hp h80 hemail hcache
    have hr : sopt.applyLocalMode.resolvePort = Except.ok sopt.applyLocalMode :=
      resolvePort_of_port_ne_zero (by rw [applyLocalMode_eq]; simpa using hp)
    have hnl := not_hostLooksLocal hhll
    have hc : sopt.applyLocalMode.checkLetsEncrypt =
        Except.error (VerifyError.portMismatch sopt.applyLocalMode.Port) :=
      checkLetsEncrypt_portMismatch
        (by rw [applyLocalMode_eq]; simpa using htls)
        (by rw [applyLocalMode_eq]; simp [hisl, hhll])
        (by rw [applyLocalMode_eq]; simpa using hnl.1)
        (by rw [applyLocalMode_eq]; simpa using hemail)
        (by rw [applyLocalMode_eq]; simpa using hcache)
        (by rw [applyLocalMode_eq]; simpa using h80)
    have hv := verify_eq_error_of_check hr hc
    have hP : sopt.applyLocalMode.Port = sopt.Port := by
      rw [applyLocalMode_eq]
    rw [hP] at hv
    exact hv
  · intro out hv hp
    obtain ⟨mid, hr, hc, hout⟩ := verify_ok_elim hv
    have hmid := resolvePort_ok_port hr (by rw [applyLocalMode_eq]; simpa using hp)
    have hP : out.Port = mid.Port := by
      rw [hout]
      by_cases hH : mid.Host = "" ∨ mid.Host = "localhost"
      · rw [applySchemeAndHost_of_host_local hH]
      · push_neg at hH
        rw [applySchemeAndHost_of_host_other hH.1 hH.2]
    rw [hP, hmid, applyLocalMode_eq]

/-- C4 counterexample: TLS enabled, resolved port 8080 and an empty
contact email make validation fail with the missing-email error, not the
port-mismatch error the claim promises. -/
theorem C4_counterexample :
    Options.Verify { Options.zero with
                     Host := "h.example.com", Port := 8080,
                     LetsEncrypt := true } =
      Except.error VerifyError.missingEmail ∧
    VerifyError.missingEmail.isPortMismatch = false :=
  ⟨rfl, rfl⟩

/-- C4 witness: a fully-populated TLS configuration on port 8081 fails
with exactly the port-mismatch error. -/
theorem C4_witness :
    Options.Verify { Options.zero with
                     Host := "h.example.com", Port := 8081,
                     LetsEncrypt := true, LetsEncryptEmail := "a@b.c",
                     LetsEncryptCacheDir := "/x" } =
      Except.error (VerifyError.portMismatch 8081) :=
  (C4_tls_port_mismatch _).2.1 rfl rfl (by decide) (by decide) (by decide)
    (by decide) (by decide)

/-- C5 (amended): with TLS enabled and a local-looking hostname (empty,
`"localhost"`, or `localhost:<port>`), validation always fails; the error
is the not-supported-on-localhost error whenever the port resolves (the
port or the development default is non-zero), and the
missing-port-for-local-development error when both are zero. -/
theorem C5_tls_on_localhost (sopt : Options)
    (hlocal : sopt.hostLooksLocal = true) (htls : sopt.LetsEncrypt = true) :
    sopt.verifySucceeds = false ∧
    (sopt.Port ≠ 0 ∨ sopt.DefaultDevPort ≠ 0 →
      sopt.Verify = Except.error VerifyError.notSupportedOnLocalhost) := by
  have h1 : sopt.applyLocalMode =
      { sopt with IsLocalDevelopmentHost := true } := by
    rw [applyLocalMode_eq, hlocal]
    simp
  by_cases hp : sopt.Port = 0
  · by_cases hd : sopt.DefaultDevPort = 0
    · have hr : sopt.applyLocalMode.resolvePort =
          Except.error VerifyError.missingPortForLocalDev := by
        rw [h1]
        unfold Options.resolvePort
        simp [hp, hd]
      have hv := verify_eq_error_of_resolvePort hr
      refine ⟨by unfold Options.verifySucceeds; rw [hv], ?_⟩
      rintro (hne | hne)
      · exact absurd hp hne
      · exact absurd hd hne
    · have hr : sopt.applyLocalMode.resolvePort =
          Except.ok { sopt with
                      IsLocalDevelopmentHost := true,
                      Port := sopt.DefaultDevPort } := by
        rw [h1]
        unfold Options.resolvePort
        simp [hp, hd]
      have hc : Options.checkLetsEncrypt
          { sopt with
            IsLocalDevelopmentHost := true,
            Port := sopt.DefaultDevPort } =
          Except.error VerifyError.notSupportedOnLocalhost :=
        checkLetsEncrypt_of_local (by simpa using htls) (by simp)
      have hv := verify_eq_error_of_check hr hc
      exact ⟨by unfold Options.verifySucceeds; rw [hv], fun _ => hv⟩
  · have hr : sopt.applyLocalMode.resolvePort =
        Except.ok { sopt with IsLocalDevelopmentHost := true } := by
      rw [h1]
      exact resolvePort_of_port_ne_zero (by simpa using hp)
    have hc : Options.checkLetsEncrypt
        { sopt with IsLocalDevelopmentHost := true } =
        Except.error VerifyError.notSupportedOnLocalhost :=
      checkLetsEncrypt_of_local (by simpa using htls) (by simp)
    have hv := verify_eq_error_of_check hr hc
    exact ⟨by unfold Options.verifySucceeds; rw [hv], fun _ => hv⟩

/-- C5 counterexample: TLS on `localhost` with both the port and the
development default at zero fails with the missing-port error, not the
not-supported-on-localhost error the claim promises for all other field
values. -/
theorem C5_counterexample :
    Options.Verify { Options.zero with
                     Host := "localhost", LetsEncrypt := true } =
      Except.error VerifyError.missingPortForLocalDev ∧
    VerifyError.missingPortForLocalDev ≠
      VerifyError.notSupportedOnLocalhost :=
  ⟨rfl, by decide⟩

/-- C5 witness: TLS on `localhost` with a non-zero port fails with the
not-supported-on-localhost error. -/
theorem C5_witness :
    Options.Verify { Options.zero with
                     Host := "localhost", Port := 3000,
                     LetsEncrypt := true } =
      Except.error VerifyError.notSupportedOnLocalhost :=
  (C5_tls_on_localhost
    { Options.zero with
      Host := "localhost", Port := 3000, LetsEncrypt := true }
    (by decide) rfl).2 (Or.inl (by decide))

/-- C1 (amended): a started server's completion-channel capacity is always
2, whatever the TLS mode; the number of started listener executions is 1
without TLS and 2 with it, so the capacity equals the execution count only
in TLS mode and strictly exceeds it (2 vs 1) otherwise — in both cases the
capacity is at least the execution count, so no reporting execution
blocks. -/
theorem C1_channel_capacity (handler : Handler) (sopt0 : Options)
    (acmeURL : String) (stat : StatResult) (srv : Server)
    (h : Start handler sopt0 acmeURL stat = Except.ok srv) :
    srv.errcCap = 2 ∧
    srv.startedExecutions = (if srv.httpsServer.isSome then 2 else 1) ∧
    srv.startedExecutions ≤ srv.errcCap ∧
    (sopt0.LetsEncrypt = false → srv.startedExecutions = 1) ∧
    (sopt0.LetsEncrypt = true → srv.startedExecutions = 2) := by
  obtain ⟨sopt1, url, tls, hv, hurl, htls, hsrv⟩ := start_ok_elim h
  have hle1 : sopt1.LetsEncrypt = sopt0.LetsEncrypt := by
    rcases startVerify_elim hv with ⟨_, hvv⟩ | ⟨_, heq⟩
    · exact (verify_ok_frame hvv).2.2.1
    · rw [heq]
  have hle : (applyShutdownDefault sopt1).LetsEncrypt = sopt0.LetsEncrypt :=
    ((applyShutdownDefault_frame sopt1).2.2.1).trans hle1
  rcases startTLSPart_ok_elim htls with ⟨hoff, rfl⟩ | ⟨hon, _, rfl⟩
  · subst hsrv
    refine ⟨rfl, rfl, by simp [mkServer], fun _ => rfl, fun hx => ?_⟩
    rw [hx] at hle
    rw [hoff] at hle
    exact absurd hle.symm (by decide)
  · subst hsrv
    refine ⟨rfl, rfl, by simp [mkServer], fun hx => ?_, fun _ => rfl⟩
    rw [hx] at hle
    rw [hon] at hle
    exact absurd hle (by decide)

/-- C1 counterexample: a started server with TLS disabled has one started
listener execution but completion-channel capacity 2, not 1 as the claim
states. -/
theorem C1_counterexample :
    Start ⟨1⟩ { Options.zero with Host := "c1.example.com", Port := 8080 }
        acmeProductionURL none =
      Except.ok { httpServer := some ⟨":8080", HTTPHandler.caller ⟨1⟩⟩,
                  httpsServer := none, errcCap := 2, startedExecutions := 1,
                  gracefulShutdownTimeout := 10000000000,
                  baseURL := "https://c1.example.com",
                  endpoints := ["https://c1.example.com", "127.0.0.1:8080"] } ∧
    (2 : Nat) ≠ 1 :=
  ⟨rfl, by decide⟩

/-- C1 witness: a TLS-enabled start yields capacity 2 with two started
executions. -/
theorem C1_witness :
    Server.errcCap
      { httpServer := some ⟨":80", HTTPHandler.challengeResponder⟩,
        httpsServer := some ⟨":https", HTTPHandler.caller ⟨2⟩⟩,
        errcCap := 2, startedExecutions := 2,
        gracefulShutdownTimeout := 10000000000,
        baseURL := "https://w1.example.com",
        endpoints := ["https://w1.example.com"] } = 2 :=
  (C1_channel_capacity ⟨2⟩
    { Options.zero with
      Host := "w1.example.com", LetsEncrypt := true,
      LetsEncryptEmail := "a@b.c", LetsEncryptCacheDir := "/var/cache" }
    acmeProductionURL (some true)
    { httpServer := some ⟨":80", HTTPHandler.challengeResponder⟩,
      httpsServer := some ⟨":https", HTTPHandler.caller ⟨2⟩⟩,
      errcCap := 2, startedExecutions := 2,
      gracefulShutdownTimeout := 10000000000,
      baseURL := "https://w1.example.com",
      endpoints := ["https://w1.example.com"] } rfl).1

/-- C10: a zero graceful-shutdown timeout in the options passed to `Start`
becomes a 10-second (10000000000 ns) deadline on the created server; a
non-zero caller-supplied timeout is stored unchanged. -/
theorem C10_graceful_timeout_default (handler : Handler) (sopt0 : Options)
    (acmeURL : String) (stat : StatResult) (srv : Server)
    (h : Start handler sopt0 acmeURL stat = Except.ok srv) :
    (sopt0.GracefulShutdownTimeout = 0 →
      srv.gracefulShutdownTimeout = 10000000000) ∧
    (sopt0.GracefulShutdownTimeout ≠ 0 →
      srv.gracefulShutdownTimeout = sopt0.GracefulShutdownTimeout) := by
  obtain ⟨sopt1, url, tls, hv, hurl, htls, hsrv⟩ := start_ok_elim h
  have h1 : sopt1.GracefulShutdownTimeout = sopt0.GracefulShutdownTimeout := by
    rcases startVerify_elim hv with ⟨_, hvv⟩ | ⟨_, heq⟩
    · exact (verify_ok_frame hvv).2.1
    · rw [heq]
  have hsrvT : srv.gracefulShutdownTimeout =
      (applyShutdownDefault sopt1).GracefulShutdownTimeout := by
    rw [hsrv]
    rfl
  constructor
  · intro h0
    rw [hsrvT, (applyShutdownDefault_timeout sopt1).1 (by rw [h1]; exact h0)]
  · intro h0
    rw [hsrvT, (applyShutdownDefault_timeout sopt1).2 (by rw [h1]; exact h0), h1]

/-- C10 witness: starting with a zero timeout stores the 10-second default;
the same options with an explicit timeout keep it. -/
theorem C10_witness :
    Server.gracefulShutdownTimeout
      { httpServer := some ⟨":8080", HTTPHandler.caller ⟨6⟩⟩,
        httpsServer := none, errcCap := 2, startedExecutions := 1,
        gracefulShutdownTimeout := 10000000000,
        baseURL := "https://w10.example.com",
        endpoints := ["https://w10.example.com", "127.0.0.1:8080"] } =
      10000000000 :=
  (C10_graceful_timeout_default ⟨6⟩
    { Options.zero with Host := "w10.example.com", Port := 8080 }
    acmeProductionURL none
    { httpServer := some ⟨":8080", HTTPHandler.caller ⟨6⟩⟩,
      httpsServer := none, errcCap := 2, startedExecutions := 1,
      gracefulShutdownTimeout := 10000000000,
      baseURL := "https://w10.example.com",
      endpoints := ["https://w10.example.com", "127.0.0.1:8080"] } rfl).1 rfl

/-- C2: on a started server, `Wait` performs exactly one blocking receive
per started listener execution (one without TLS, two with it) and, given
that many queued completions, returns the first non-nil error received, or
nil when every received completion is nil. -/
theorem C2_wait_semantics (handler : Handler) (sopt0 : Options)
    (acmeURL : String) (stat : StatResult) (srv : Server)
    (queue : List (Option String))
    (h : Start handler sopt0 acmeURL stat = Except.ok srv)
    (hq : srv.numReceives ≤ queue.length) :
    srv.numReceives = srv.startedExecutions ∧
    srv.numReceives = (if srv.httpsServer.isSome then 2 else 1) ∧
    srv.Wait queue = some (firstNonNil (queue.take srv.numReceives)) := by
  obtain ⟨sopt1, url, tls, hv, hurl, htls, hsrv⟩ := start_ok_elim h
  rcases startTLSPart_ok_elim htls with ⟨hoff, rfl⟩ | ⟨hon, hstat, rfl⟩
  · subst hsrv
    refine ⟨rfl, rfl, ?_⟩
    cases queue with
    | nil => simp [Server.numReceives, mkServer] at hq
    | cons e rest => cases e <;> rfl
  · subst hsrv
    refine ⟨rfl, rfl, ?_⟩
    cases queue with
    | nil => simp [Server.numReceives, mkServer] at hq
    | cons e1 q1 =>
      cases q1 with
      | nil => simp [Server.numReceives, mkServer] at hq
      | cons e2 rest => cases e1 <;> cases e2 <;> rfl

/-- C2 witness: a TLS-enabled started server with queued completions
`[some "boom", none]` returns the first (non-nil) error from `Wait`. -/
theorem C2_witness :
    Server.Wait
      { httpServer := some ⟨":80", HTTPHandler.challengeResponder⟩,
        httpsServer := some ⟨":https", HTTPHandler.caller ⟨3⟩⟩,
        errcCap := 2, startedExecutions := 2,
        gracefulShutdownTimeout := 10000000000,
        baseURL := "https://w2.example.com",
        endpoints := ["https://w2.example.com"] }
      [some "boom", none] = some (some "boom") :=
  (C2_wait_semantics ⟨3⟩
    { Options.zero with
      Host := "w2.example.com", LetsEncrypt := true,
      LetsEncryptEmail := "a@b.c", LetsEncryptCacheDir := "/var/cache" }
    acmeProductionURL (some true)
    { httpServer := some ⟨":80", HTTPHandler.challengeResponder⟩,
      httpsServer := some ⟨":https", HTTPHandler.caller ⟨3⟩⟩,
      errcCap := 2, startedExecutions := 2,
      gracefulShutdownTimeout := 10000000000,
      baseURL := "https://w2.example.com",
      endpoints := ["https://w2.example.com"] }
    [some "boom", none] rfl (by decide)).2.2

/-- C7 (amended): a server started from a non-local configuration with TLS
disabled and port 8080 has exactly two endpoints, not one: the preferred
base address followed by the loopback supplement `127.0.0.1:8080`, because
the loopback entry is appended whenever the server is not in
local-development mode and the port is not 80. -/
theorem C7_endpoints_with_loopback (handler : Handler) (sopt0 : Options)
    (acmeURL : String) (stat : StatResult) (srv : Server)
    (hisl : sopt0.IsLocalDevelopmentHost = false)
    (hhll : sopt0.hostLooksLocal = false)
    (hport : sopt0.Port = 8080)
    (h : Start handler sopt0 acmeURL stat = Except.ok srv) :
    srv.Endpoints = [srv.baseURL, "127.0.0.1:8080"] ∧
    srv.Endpoints.length = 2 := by
  obtain ⟨sopt1, url, tls, hv, hurl, htls, hsrv⟩ := start_ok_elim h
  have hs1 : sopt1.IsLocalDevelopmentHost = false ∧ sopt1.Port = 8080 := by
    rcases startVerify_elim hv with ⟨_, hvv⟩ | ⟨_, heq⟩
    · obtain ⟨mid, hr, hc, hout⟩ := verify_ok_elim hvv
      have hmid := resolvePort_ok_port hr
        (by rw [applyLocalMode_eq]; simp [hport])
      have hnl := not_hostLooksLocal hhll
      have hmidH : mid.Host = sopt0.Host := by
        rw [hmid, applyLocalMode_eq]
      have hsc := applySchemeAndHost_of_host_other
        (by rw [hmidH]; exact hnl.1) (by rw [hmidH]; exact hnl.2)
      constructor
      · rw [hout, hsc]
        show mid.IsLocalDevelopmentHost = false
        rw [hmid, applyLocalMode_eq]
        simp [hisl, hhll]
      · rw [hout, hsc]
        show mid.Port = 8080
        rw [hmid, applyLocalMode_eq]
        simpa using hport
    · rw [heq]
      exact ⟨hisl, hport⟩
  have hsd : (applyShutdownDefault sopt1).IsLocalDevelopmentHost = false ∧
      (applyShutdownDefault sopt1).Port = 8080 := by
    have hf := applyShutdownDefault_frame sopt1
    exact ⟨hf.2.2.2.1.trans hs1.1, hf.1.trans hs1.2⟩
  have hE : (mkServer (applyShutdownDefault sopt1) url tls).endpoints =
      [url, "127.0.0.1:8080"] := by
    unfold mkServer
    have hstr : "127.0.0.1:" ++ toString (8080 : Int) = "127.0.0.1:8080" := rfl
    simp [hsd.1, hsd.2, hstr]
  subst hsrv
  refine ⟨?_, ?_⟩
  · show (mkServer (applyShutdownDefault sopt1) url tls).endpoints =
      [(mkServer (applyShutdownDefault sopt1) url tls).baseURL,
       "127.0.0.1:8080"]
    rw [hE]
    rfl
  · show (mkServer (applyShutdownDefault sopt1) url tls).endpoints.length = 2
    rw [hE]
    rfl

/-- C7 counterexample: starting with host `c7.example.org`, TLS disabled
and port 8080 yields an endpoint list of two entries, not the single entry
the claim states. -/
theorem C7_counterexample :
    Start ⟨4⟩ { Options.zero with Host := "c7.example.org", Port := 8080 }
        acmeProductionURL none =
      Except.ok { httpServer := some ⟨":8080", HTTPHandler.caller ⟨4⟩⟩,
                  httpsServer := none, errcCap := 2, startedExecutions := 1,
                  gracefulShutdownTimeout := 10000000000,
                  baseURL := "https://c7.example.org",
                  endpoints := ["https://c7.example.org", "127.0.0.1:8080"] } ∧
    (["https://c7.example.org", "127.0.0.1:8080"] : List String).length ≠ 1 :=
  ⟨rfl, by decide⟩

/-- C7 witness: the two-endpoint shape on a concrete non-local, TLS-off,
port-8080 start. -/
theorem C7_witness :
    Server.Endpoints
      { httpServer := some ⟨":8080", HTTPHandler.caller ⟨5⟩⟩,
        httpsServer := none, errcCap := 2, startedExecutions := 1,
        gracefulShutdownTimeout := 10000000000,
        baseURL := "https://w7.example.org",
        endpoints := ["https://w7.example.org", "127.0.0.1:8080"] } =
      ["https://w7.example.org", "127.0.0.1:8080"] :=
  (C7_endpoints_with_loopback ⟨5⟩
    { Options.zero with Host := "w7.example.org", Port := 8080 }
    acmeProductionURL none
    { httpServer := some ⟨":8080", HTTPHandler.caller ⟨5⟩⟩,
      httpsServer := none, errcCap := 2, startedExecutions := 1,
      gracefulShutdownTimeout := 10000000000,
      baseURL := "https://w7.example.org",
      endpoints := ["https://w7.example.org", "127.0.0.1:8080"] }
    rfl (by decide) rfl rfl).1

end EasyHTTPServer
